import Mathlib

/-! Shallow embedding of the reminder lifecycle, durable scheduling queue,
reminder worker and conversation flow state machine of the
whatsapp-reminder-agent repository.  Times are integer epoch milliseconds;
the relational store is modelled as an association list keyed by record id. -/

/-- Reminder status (src/types ReminderStatus). -/
inductive ReminderStatus
  | pending
  | sent
  | delivered
  | failed
  | cancelled
  deriving DecidableEq

/-- A reminder record (prisma model Reminders). -/
structure Reminder where
  id : String
  userId : String
  reminderText : String
  scheduledTime : Int
  status : ReminderStatus
  sentAt : Option Int
  deliveredAt : Option Int
  failureReason : Option String
  whatsappMsgId : Option String
  deriving DecidableEq

/-- A user record (prisma model Users); only the fields the scheduler uses. -/
structure User where
  id : String
  phoneNumber : String
  deriving DecidableEq

/-- Direction of a conversation log entry (src/types ConversationDirection). -/
inductive Direction
  | inbound
  | outbound
  deriving DecidableEq

/-- A conversation log entry (prisma model Conversations), append-only. -/
structure ConversationMessage where
  userId : String
  direction : Direction
  messageText : String
  whatsappMessageId : Option String
  detectedIntent : Option String
  relatedReminderId : Option String
  deriving DecidableEq

/-- ReminderRepository.findById: prisma findUnique on the reminder id. -/
def findById (db : List Reminder) (id : String) : Option Reminder :=
  db.find? (fun r => r.id == id)

/-- prisma update keyed by reminder id: applies the field patch to the record
with the given id, leaving all other records unchanged. -/
def updateById (db : List Reminder) (id : String) (f : Reminder → Reminder) :
    List Reminder :=
  db.map (fun r => if r.id == id then f r else r)

/-- ReminderRepository.cancel: update with data status cancelled (no guard on
the current status in the source). -/
def cancel (db : List Reminder) (id : String) : List Reminder :=
  updateById db id (fun r => { r with status := ReminderStatus.cancelled })

/-- ReminderRepository.markAsSent: status sent, sentAt now, whatsappMsgId. -/
def markAsSent (db : List Reminder) (id whatsappMsgId : String) (now : Int) :
    List Reminder :=
  updateById db id (fun r =>
    { r with status := ReminderStatus.sent, sentAt := some now,
             whatsappMsgId := some whatsappMsgId })

/-- ReminderRepository.markAsFailed: status failed, failureReason reason. -/
def markAsFailed (db : List Reminder) (id reason : String) : List Reminder :=
  updateById db id (fun r =>
    { r with status := ReminderStatus.failed, failureReason := some reason })

/-- ReminderRepository.findPendingReminders: all records with status pending
and, when beforeTime is given, scheduledTime lte beforeTime.  The source also
orders the result by scheduledTime ascending; the ordering is irrelevant to
the claims and is not modelled. -/
def findPendingReminders (db : List Reminder) (beforeTime : Option Int) :
    List Reminder :=
  db.filter (fun r =>
    r.status == ReminderStatus.pending &&
      match beforeTime with
      | some t => decide (r.scheduledTime ≤ t)
      | none => true)

/-- UserRepository.findById (via UserService.getUserById). -/
def userFindById (users : List User) (id : String) : Option User :=
  users.find? (fun u => u.id == id)

/-- Status of the record with the given id, if present. -/
def statusOf (db : List Reminder) (id : String) : Option ReminderStatus :=
  (findById db id).map Reminder.status

/-- Payload of a queue task (ReminderJobData in src/jobs/reminder-queue.ts). -/
structure ReminderJobData where
  reminderId : String
  userId : String
  phoneNumber : String
  reminderText : String
  deriving DecidableEq

/-- A task held by the delayed queue: job id (deduplication key), payload and
the computed delay in milliseconds. -/
structure QueueTask where
  jobId : String
  data : ReminderJobData
  delay : Int
  deriving DecidableEq

/-- Whether the queue holds a task with the given job id. -/
def hasKey (q : List QueueTask) (id : String) : Bool :=
  q.any (fun t => t.jobId == id)

/-- Number of tasks in the queue with the given job id. -/
def countKey (q : List QueueTask) (id : String) : Nat :=
  q.countP (fun t => t.jobId == id)

/-- Modelled from the spec: the backing add operation of the DelayedTaskQueue
(the external job-queue library behind Queue.add in reminder-queue.ts) is not
part of the repository source.  Per the spec contract for schedule(key,
payload, fireAt), a task with an already-present key is never duplicated: the
queue keeps a single task per key.  Here an add on a present key keeps the
existing task; otherwise the task is appended. -/
def queueAdd (q : List QueueTask) (jobId : String) (data : ReminderJobData)
    (delay : Int) : List QueueTask :=
  if hasKey q jobId then q else q ++ [⟨jobId, data, delay⟩]

/-- ReminderQueue retry budget: defaultJobOptions attempts in
src/jobs/reminder-queue.ts. -/
def reminderQueueAttempts : Nat := 3

/-- ReminderQueue backoff base delay in milliseconds: defaultJobOptions
backoff delay in src/jobs/reminder-queue.ts. -/
def reminderQueueBackoffDelayMs : Nat := 2000

/-- ReminderQueue.scheduleReminder: computes delay as scheduledTime minus now,
logs a warning when the delay is negative, and adds a task keyed by the
reminder id with the delay clamped at 0.  The returned flag records whether
the past-time warning was logged. -/
def scheduleReminder (reminder : Reminder) (phoneNumber : String) (now : Int)
    (q : List QueueTask) : List QueueTask × Bool :=
  let delay := reminder.scheduledTime - now
  let warned := decide (delay < 0)
  let jobData : ReminderJobData :=
    { reminderId := reminder.id, userId := reminder.userId,
      phoneNumber := phoneNumber, reminderText := reminder.reminderText }
  (queueAdd q reminder.id jobData (max 0 delay), warned)

/-- Outcome of one notifier call (WhatsAppService.sendTextMessage): success
carries the returned external message id, failure the error message. -/
inductive SendResult
  | success (messageId : String)
  | failure (errMessage : String)
  deriving DecidableEq

/-- Result of one worker invocation: the reminder store, the conversation log,
how many notifier sends were performed, and the error re-thrown to the queue
(none when the job completed or was skipped). -/
structure WorkerOutcome where
  db : List Reminder
  log : List ConversationMessage
  sendAttempts : Nat
  threw : Option String
  deriving DecidableEq

/-- The message text rendered by the worker. -/
def renderMessage (reminderText : String) : String :=
  "🔔 Reminder:\n\n" ++ reminderText

/-- ReminderWorker.processReminder: re-fetch the reminder; skip when absent or
not pending; otherwise invoke the notifier (outcome given by send); on success
mark the reminder sent and append one outbound conversation message; on
failure mark the reminder failed with the error message and re-throw. -/
def processReminder (job : ReminderJobData) (db : List Reminder)
    (log : List ConversationMessage) (send : SendResult) (now : Int) :
    WorkerOutcome :=
  match findById db job.reminderId with
  | none => ⟨db, log, 0, none⟩
  | some reminder =>
    if reminder.status ≠ ReminderStatus.pending then ⟨db, log, 0, none⟩
    else
      match send with
      | SendResult.success messageId =>
        let message := renderMessage job.reminderText
        let db' := markAsSent db job.reminderId messageId now
        let msg : ConversationMessage :=
          { userId := job.userId,
            direction := Direction.outbound,
            messageText := message,
            whatsappMessageId := some messageId,
            detectedIntent := some "create_reminder",
            relatedReminderId := some job.reminderId }
        ⟨db', log ++ [msg], 1, none⟩
      | SendResult.failure errMessage =>
        ⟨markAsFailed db job.reminderId errMessage, log, 1, some errMessage⟩

/-- Whether one store step moved the reminder with the given id from pending
to sent. -/
def sentTransition (db db' : List Reminder) (id : String) : Bool :=
  statusOf db id == some ReminderStatus.pending &&
    statusOf db' id == some ReminderStatus.sent

/-- Redelivery harness for the at-most-once property: runs the worker once per
delivery of the same task (each delivery with its own notifier outcome) and
counts the pending-to-sent transitions performed. -/
def runDeliveries (job : ReminderJobData) (now : Int) :
    List SendResult → List Reminder → List ConversationMessage →
      List Reminder × List ConversationMessage × Nat
  | [], db, log => (db, log, 0)
  | s :: rest, db, log =>
    let o := processReminder job db log s now
    let r := runDeliveries job now rest o.db o.log
    (r.1, r.2.1,
      (if sentTransition db o.db job.reminderId then 1 else 0) + r.2.2)

/-- Lookahead horizon of the recovery sweep: one hour in milliseconds
(src/jobs/scheduler.ts). -/
def oneHourMs : Int := 60 * 60 * 1000

/-- Per-reminder body of the sweep loop in
ReminderScheduler.checkAndScheduleReminders: fetch the owner; when absent, log
a warning and leave the queue unchanged; otherwise call
ReminderQueue.scheduleReminder, which may throw (schedFails gives the throwing
calls). -/
def sweepOne (users : List User) (schedFails : String → Bool) (now : Int)
    (q : List QueueTask) (r : Reminder) : Except String (List QueueTask) :=
  match userFindById users r.userId with
  | none => Except.ok q
  | some user =>
    if schedFails r.id then Except.error "Failed to schedule reminder"
    else Except.ok (scheduleReminder r user.phoneNumber now q).1

/-- The for-loop of ReminderScheduler.checkAndScheduleReminders: each
iteration runs in its own try/catch, so a throwing iteration only logs and the
loop continues with the queue unchanged. -/
def sweepLoop (users : List User) (schedFails : String → Bool) (now : Int) :
    List Reminder → List QueueTask → List QueueTask
  | [], q => q
  | r :: rest, q =>
    match sweepOne users schedFails now q r with
    | Except.ok q' => sweepLoop users schedFails now rest q'
    | Except.error _ => sweepLoop users schedFails now rest q

/-- ReminderScheduler.checkAndScheduleReminders: one sweep.  Queries all
pending reminders with scheduledTime up to one hour from now, returns early
when none, and otherwise schedules each in the loop above. -/
def checkAndScheduleReminders (db : List Reminder) (users : List User)
    (schedFails : String → Bool) (now : Int) (q : List QueueTask) :
    List QueueTask :=
  let pendingReminders := findPendingReminders db (some (now + oneHourMs))
  if pendingReminders.isEmpty then q
  else sweepLoop users schedFails now pendingReminders q

/-- Key/value bag for flow data (the untyped JSON object of the source),
modelled as an association list; lookup takes the first binding of a key. -/
def FlowData : Type := List (String × String)

/-- Lookup of a key in a flow data bag. -/
def lookupKV (l : List (String × String)) (k : String) : Option String :=
  (l.find? (fun p => p.1 == k)).map Prod.snd

/-- The object spread of the source, mergedData = spread of currentData then
data: the result binds every key of data to its value in data, and every
other key of cur to its value in cur. -/
def spreadMerge (cur upd : List (String × String)) :
    List (String × String) :=
  cur.filter (fun p => (lookupKV upd p.1).isNone) ++ upd

/-- Per-user agent state (prisma model AgentState). -/
structure AgentState where
  userId : String
  currentAgent : String
  activeFlow : Option String
  flowData : List (String × String)
  lastUpdated : Int
  deriving DecidableEq

/-- AgentStateService.getState: prisma findUnique keyed by user id. -/
def getState (db : List AgentState) (userId : String) : Option AgentState :=
  db.find? (fun s => s.userId == userId)

/-- prisma update keyed by user id on the agent state table. -/
def updateStateById (db : List AgentState) (userId : String)
    (f : AgentState → AgentState) : List AgentState :=
  db.map (fun s => if s.userId == userId then f s else s)

/-- AgentStateService.startFlow: throws when no agent state row exists for the
user; otherwise sets activeFlow to the flow name and flowData to the initial
data (the source performs no check on an already active flow). -/
def startFlow (db : List AgentState) (userId flowName : String)
    (initialData : List (String × String)) (now : Int) :
    Except String (List AgentState) :=
  match getState db userId with
  | none => Except.error "Agent state not found. Set agent first."
  | some _ =>
    Except.ok (updateStateById db userId (fun s =>
      { s with activeFlow := some flowName, flowData := initialData,
               lastUpdated := now }))

/-- AgentStateService.updateFlowData: when the state is absent or no flow is
active, log a warning and return with no write; otherwise write the spread
merge of the current flow data with the given data. -/
def updateFlowData (db : List AgentState) (userId : String)
    (data : List (String × String)) (now : Int) : List AgentState :=
  match getState db userId with
  | none => db
  | some state =>
    if state.activeFlow.isNone then db
    else
      let mergedData := spreadMerge state.flowData data
      updateStateById db userId (fun s =>
        { s with flowData := mergedData, lastUpdated := now })

/-- AgentStateService.completeFlow: clears activeFlow and flowData. -/
def completeFlow (db : List AgentState) (userId : String) (now : Int) :
    List AgentState :=
  updateStateById db userId (fun s =>
    { s with activeFlow := none, flowData := [], lastUpdated := now })

/-- A reminder record with the given id, owner, text, time and status and all
nullable fields unset; used as concrete input in witnesses. -/
def mkReminder (id uid text : String) (t : Int) (st : ReminderStatus) :
    Reminder :=
  { id := id, userId := uid, reminderText := text, scheduledTime := t,
    status := st, sentAt := none, deliveredAt := none, failureReason := none,
    whatsappMsgId := none }

/-- The queue payload built for a reminder, as the scheduler builds it. -/
def mkJob (r : Reminder) (phone : String) : ReminderJobData :=
  { reminderId := r.id, userId := r.userId, phoneNumber := phone,
    reminderText := r.reminderText }

/-- sentAt of the record with the given id, if present. -/
def sentAtOf (db : List Reminder) (id : String) : Option Int :=
  (findById db id).bind Reminder.sentAt

/-- failureReason of the record with the given id, if present. -/
def failureReasonOf (db : List Reminder) (id : String) : Option String :=
  (findById db id).bind Reminder.failureReason

/-- whatsappMsgId of the record with the given id, if present. -/
def whatsappMsgIdOf (db : List Reminder) (id : String) : Option String :=
  (findById db id).bind Reminder.whatsappMsgId

/-- Failing input for the retry claim: a pending reminder whose first send
attempt fails while the queue still has retries budgeted. -/
def c2Reminder : Reminder :=
  mkReminder "r1" "u1" "pay rent" 1000 ReminderStatus.pending

/-- The task the queue delivers for the reminder above. -/
def c2Job : ReminderJobData := mkJob c2Reminder "+911"

/-- Worker outcome of the first, failing delivery of the task above. -/
def c2AfterFirstFailure : WorkerOutcome :=
  processReminder c2Job [c2Reminder] [] (SendResult.failure "Request timeout") 0

/-- A user with an active flow and accumulated flow data. -/
def c3State : AgentState :=
  { userId := "u", currentAgent := "reminder",
    activeFlow := some "split_expense", flowData := [("amount", "500")],
    lastUpdated := 0 }

/-- The state left by a second startFlow call on the state above: the flow
name and data are overwritten. -/
def c3Overwritten : AgentState :=
  { userId := "u", currentAgent := "reminder",
    activeFlow := some "create_reminder", flowData := [],
    lastUpdated := 5 }

/-- The state expected after the witness run of the amended startFlow. -/
def c3WitnessState : AgentState :=
  { userId := "u", currentAgent := "reminder",
    activeFlow := some "create_reminder", flowData := [("x", "1")],
    lastUpdated := 7 }

/-- A reminder already in the terminal state delivered. -/
def c4Delivered : Reminder :=
  mkReminder "r4" "u4" "call mom" 500 ReminderStatus.delivered

/-- A pending reminder used by the happy-path witness. -/
def c7Reminder : Reminder :=
  mkReminder "r7" "u7" "drink water" 60000 ReminderStatus.pending

/- ===================== theorems ===================== -/

/-- Updating the record carrying a given key and then looking that key up
finds the updated record, provided the update does not change the key. -/
theorem find?_update_eq {α : Type} (key : α → String) (f : α → α)
    (id : String) (hf : ∀ a, key (f a) = key a) (db : List α) :
    ((db.map fun a => if key a == id then f a else a).find?
        fun a => key a == id) =
      (db.find? fun a => key a == id).map f := by
  induction db with
  | nil => rfl
  | cons a rest ih =>
    by_cases h : key a = id
    · have hb : (key a == id) = true := by simpa using h
      have hb' : (key (f a) == id) = true := by simp [hf a, h]
      have hif : (if key a == id then f a else a) = f a := by simp [hb]
      rw [List.map_cons, hif]
      simp only [List.find?_cons, hb, hb']
      rfl
    · have hb : (key a == id) = false := by simpa using h
      have hif : (if key a == id then f a else a) = a := by simp [hb]
      rw [List.map_cons, hif]
      simp only [List.find?_cons, hb]
      exact ih

/-- findById after an id-preserving updateById at the same id. -/
theorem findById_updateById (db : List Reminder) (id : String)
    (f : Reminder → Reminder) (hf : ∀ r, (f r).id = r.id) :
    findById (updateById db id f) id = (findById db id).map f :=
  find?_update_eq Reminder.id f id hf db

/-- getState after an id-preserving updateStateById at the same user. -/
theorem getState_updateStateById (db : List AgentState) (userId : String)
    (f : AgentState → AgentState) (hf : ∀ s, (f s).userId = s.userId) :
    getState (updateStateById db userId f) userId =
      (getState db userId).map f :=
  find?_update_eq AgentState.userId f userId hf db

/-- markAsSent sets the status of an existing record to sent. -/
theorem statusOf_markAsSent (db : List Reminder) (id m : String) (now : Int) :
    statusOf (markAsSent db id m now) id =
      (statusOf db id).map (fun _ => ReminderStatus.sent) := by
  unfold statusOf markAsSent
  have h := findById_updateById db id
    (fun r =>
      { r with status := ReminderStatus.sent, sentAt := some now,
               whatsappMsgId := some m })
    (fun r => rfl)
  rw [h]
  cases findById db id <;> rfl

/-- markAsFailed sets the status of an existing record to failed. -/
theorem statusOf_markAsFailed (db : List Reminder) (id reason : String) :
    statusOf (markAsFailed db id reason) id =
      (statusOf db id).map (fun _ => ReminderStatus.failed) := by
  unfold statusOf markAsFailed
  have h := findById_updateById db id
    (fun r =>
      { r with status := ReminderStatus.failed,
               failureReason := some reason })
    (fun r => rfl)
  rw [h]
  cases findById db id <;> rfl

/-- cancel sets the status of an existing record to cancelled. -/
theorem statusOf_cancel (db : List Reminder) (id : String) :
    statusOf (cancel db id) id =
      (statusOf db id).map (fun _ => ReminderStatus.cancelled) := by
  unfold statusOf cancel
  have h := findById_updateById db id
    (fun r => { r with status := ReminderStatus.cancelled })
    (fun r => rfl)
  rw [h]
  cases findById db id <;> rfl

/-- The worker is a no-op whenever the re-fetched reminder is absent or not
pending. -/
theorem processReminder_not_pending (job : ReminderJobData)
    (db : List Reminder) (log : List ConversationMessage) (send : SendResult)
    (now : Int) (h : statusOf db job.reminderId ≠ some ReminderStatus.pending) :
    processReminder job db log send now = ⟨db, log, 0, none⟩ := by
  unfold processReminder
  cases hfind : findById db job.reminderId with
  | none => rfl
  | some r =>
    have hr : r.status ≠ ReminderStatus.pending := by
      intro hs
      apply h
      unfold statusOf
      rw [hfind]
      simp [hs]
    simp [hr]

/-- On a pending reminder and a successful send, the worker marks the
reminder sent and appends exactly one outbound conversation message. -/
theorem processReminder_success_eq (job : ReminderJobData)
    (db : List Reminder) (log : List ConversationMessage) (m : String)
    (now : Int) (r : Reminder) (hfind : findById db job.reminderId = some r)
    (hr : r.status = ReminderStatus.pending) :
    processReminder job db log (SendResult.success m) now =
      ⟨markAsSent db job.reminderId m now,
       log ++ [⟨job.userId, Direction.outbound,
         renderMessage job.reminderText, some m, some "create_reminder",
         some job.reminderId⟩], 1, none⟩ := by
  unfold processReminder
  simp only [hfind]
  rw [if_neg (by simp [hr])]

/-- On a pending reminder and a failing send, the worker marks the reminder
failed with the error message and re-throws. -/
theorem processReminder_failure_eq (job : ReminderJobData)
    (db : List Reminder) (log : List ConversationMessage) (e : String)
    (now : Int) (r : Reminder) (hfind : findById db job.reminderId = some r)
    (hr : r.status = ReminderStatus.pending) :
    processReminder job db log (SendResult.failure e) now =
      ⟨markAsFailed db job.reminderId e, log, 1, some e⟩ := by
  unfold processReminder
  simp only [hfind]
  rw [if_neg (by simp [hr])]

/-- After any worker invocation the job's reminder is never pending: it was
already absent or non-pending, or it has just been marked sent or failed. -/
theorem processReminder_kills_pending (job : ReminderJobData)
    (db : List Reminder) (log : List ConversationMessage) (send : SendResult)
    (now : Int) :
    statusOf (processReminder job db log send now).db job.reminderId ≠
      some ReminderStatus.pending := by
  by_cases h : statusOf db job.reminderId = some ReminderStatus.pending
  · obtain ⟨r, hfind, hr⟩ : ∃ r, findById db job.reminderId = some r ∧
        r.status = ReminderStatus.pending := by
      unfold statusOf at h
      cases hf : findById db job.reminderId with
      | none => rw [hf] at h; simp at h
      | some r =>
        rw [hf] at h
        simp at h
        exact ⟨r, rfl, h⟩
    cases send with
    | success m =>
      rw [processReminder_success_eq job db log m now r hfind hr]
      show statusOf (markAsSent db job.reminderId m now) job.reminderId ≠
        some ReminderStatus.pending
      rw [statusOf_markAsSent]
      cases statusOf db job.reminderId <;> simp
    | failure e =>
      rw [processReminder_failure_eq job db log e now r hfind hr]
      show statusOf (markAsFailed db job.reminderId e) job.reminderId ≠
        some ReminderStatus.pending
      rw [statusOf_markAsFailed]
      cases statusOf db job.reminderId <;> simp
  · rw [processReminder_not_pending job db log send now h]
    exact h

/-- Once the job's reminder is not pending, redeliveries of the task perform
no pending-to-sent transition at all. -/
theorem runDeliveries_zero_of_not_pending (job : ReminderJobData) (now : Int)
    (results : List SendResult) :
    ∀ (db : List Reminder) (log : List ConversationMessage),
      statusOf db job.reminderId ≠ some ReminderStatus.pending →
      (runDeliveries job now results db log).2.2 = 0 := by
  induction results with
  | nil => intro db log _; rfl
  | cons s rest ih =>
    intro db log h
    have hnoop := processReminder_not_pending job db log s now h
    simp only [runDeliveries, hnoop]
    have hst : sentTransition db db job.reminderId = false := by
      unfold sentTransition
      have hb : (statusOf db job.reminderId ==
          some ReminderStatus.pending) = false := by
        simpa using h
      simp [hb]
    rw [hst]
    simp [ih db log h]

/-- C1: if the re-fetched reminder is absent or not pending, the worker
returns without sending and without mutating the store or the log; and over
any sequence of redeliveries of the same task, the number of successful
pending-to-sent transitions performed by the worker is at most one. -/
theorem c1_at_most_once_delivery (job : ReminderJobData) (db : List Reminder)
    (log : List ConversationMessage) (now : Int) :
    (∀ send : SendResult,
      (findById db job.reminderId = none ∨
        ∃ r, findById db job.reminderId = some r ∧
          r.status ≠ ReminderStatus.pending) →
      processReminder job db log send now = ⟨db, log, 0, none⟩) ∧
    (∀ results : List SendResult,
      (runDeliveries job now results db log).2.2 ≤ 1) := by
  constructor
  · intro send h
    apply processReminder_not_pending
    rcases h with h | ⟨r, hr, hs⟩
    · simp [statusOf, h]
    · simp [statusOf, hr, hs]
  · intro results
    cases results with
    | nil => simp [runDeliveries]
    | cons s rest =>
      simp only [runDeliveries]
      rw [runDeliveries_zero_of_not_pending job now rest _ _
        (processReminder_kills_pending job db log s now)]
      split <;> simp

/-- C1 witness: a store whose reminder is already sent is untouched by a
delivery, and two redeliveries of a pending reminder yield at most one
pending-to-sent transition. -/
theorem c1_witness :
    (processReminder (mkJob (mkReminder "r1" "u1" "pay rent" 1000
        ReminderStatus.sent) "+911") [mkReminder "r1" "u1" "pay rent" 1000
        ReminderStatus.sent] [] (SendResult.success "wamid.9") 0 =
      ⟨[mkReminder "r1" "u1" "pay rent" 1000 ReminderStatus.sent], [], 0,
        none⟩) ∧
    (runDeliveries (mkJob (mkReminder "r1" "u1" "pay rent" 1000
        ReminderStatus.pending) "+911") 0
      [SendResult.success "wamid.1", SendResult.success "wamid.2"]
      [mkReminder "r1" "u1" "pay rent" 1000 ReminderStatus.pending]
      []).2.2 ≤ 1 := by
  constructor
  · exact (c1_at_most_once_delivery _ _ [] 0).1 _
      (Or.inr ⟨mkReminder "r1" "u1" "pay rent" 1000 ReminderStatus.sent,
        by decide, by decide⟩)
  · exact (c1_at_most_once_delivery _ _ [] 0).2 _

/-- C2: the claim says a reminder whose send attempt fails with retries
remaining stays pending, moving to failed only when the budget is exhausted.
On the code, with the queue budgeting three attempts, the very first failing
attempt already marks the reminder failed, records the failure reason, and
re-throws; the subsequent queue retry then re-fetches a non-pending reminder
and is a no-op, so the send is never actually retried. -/
theorem c2_first_failure_marks_failed :
    1 < reminderQueueAttempts ∧
    statusOf c2AfterFirstFailure.db "r1" = some ReminderStatus.failed ∧
    failureReasonOf c2AfterFirstFailure.db "r1" = some "Request timeout" ∧
    c2AfterFirstFailure.threw = some "Request timeout" ∧
    processReminder c2Job c2AfterFirstFailure.db []
        (SendResult.success "wamid.1") 0 =
      ⟨c2AfterFirstFailure.db, [], 0, none⟩ := by
  decide

/-- C3 counterexample: for a user with an active flow, a second startFlow
without an intervening completeFlow does not fail: it succeeds and overwrites
both activeFlow and flowData. -/
theorem c3_counterexample :
    startFlow [c3State] "u" "create_reminder" [] 5 =
      Except.ok [c3Overwritten] := by
  rfl

/-- C3 amended: startFlow rejects only when the user has no agent state row
at all; when a state exists, even with a flow already active, the call
succeeds and replaces activeFlow and flowData with the new values. -/
theorem c3_amended (db : List AgentState) (userId flowName : String)
    (initialData : List (String × String)) (now : Int) :
    (getState db userId = none →
      startFlow db userId flowName initialData now =
        Except.error "Agent state not found. Set agent first.") ∧
    (∀ s, getState db userId = some s →
      ∃ db', startFlow db userId flowName initialData now = Except.ok db' ∧
        getState db' userId =
          some { s with activeFlow := some flowName,
                        flowData := initialData, lastUpdated := now }) := by
  constructor
  · intro h
    unfold startFlow
    rw [h]
  · intro s hs
    unfold startFlow
    rw [hs]
    refine ⟨_, rfl, ?_⟩
    have h := getState_updateStateById db userId
      (fun st =>
        { st with activeFlow := some flowName, flowData := initialData,
                  lastUpdated := now })
      (fun st => rfl)
    rw [h, hs]
    rfl

/-- C3 witness: with one existing agent state the amended startFlow
description holds at a concrete input. -/
theorem c3_witness :
    ∃ db', startFlow [c3State] "u" "create_reminder" [("x", "1")] 7 =
        Except.ok db' ∧
      getState db' "u" = some c3WitnessState :=
  (c3_amended [c3State] "u" "create_reminder" [("x", "1")] 7).2 c3State
    (by decide)

/-- C4 counterexample: cancellation of a reminder already in the terminal
state delivered is not a no-op: the code sets its status to cancelled. -/
theorem c4_counterexample :
    statusOf [c4Delivered] "r4" = some ReminderStatus.delivered ∧
    statusOf (cancel [c4Delivered] "r4") "r4" =
      some ReminderStatus.cancelled := by
  decide

/-- C4 amended: the worker no-ops on a reminder observed in a terminal state
(delivered, failed or cancelled), but cancellation is unguarded: for any
existing reminder, cancel sets the status to cancelled regardless of the
prior status, including the terminal ones. -/
theorem c4_amended (db : List Reminder) (log : List ConversationMessage)
    (job : ReminderJobData) (send : SendResult) (now : Int) (r : Reminder)
    (id : String) (r' : Reminder)
    (hfind : findById db job.reminderId = some r)
    (ht : r.status = ReminderStatus.delivered ∨
      r.status = ReminderStatus.failed ∨
      r.status = ReminderStatus.cancelled)
    (hfind' : findById db id = some r') :
    processReminder job db log send now = ⟨db, log, 0, none⟩ ∧
    statusOf (cancel db id) id = some ReminderStatus.cancelled := by
  constructor
  · apply processReminder_not_pending
    unfold statusOf
    rw [hfind]
    rcases ht with h | h | h <;> simp [h]
  · rw [statusOf_cancel]
    unfold statusOf
    rw [hfind']
    rfl

/-- C4 witness: both amended conjuncts at a store holding a delivered
reminder. -/
theorem c4_witness :
    processReminder (mkJob c4Delivered "+914") [c4Delivered] []
        (SendResult.success "wamid.4") 0 = ⟨[c4Delivered], [], 0, none⟩ ∧
    statusOf (cancel [c4Delivered] "r4") "r4" =
      some ReminderStatus.cancelled :=
  c4_amended [c4Delivered] [] (mkJob c4Delivered "+914")
    (SendResult.success "wamid.4") 0 c4Delivered "r4" c4Delivered
    (by decide) (Or.inl (by decide)) (by decide)

/-- Adding a task always leaves the queue holding its key. -/
theorem hasKey_queueAdd_self (q : List QueueTask) (id : String)
    (d : ReminderJobData) (dl : Int) :
    hasKey (queueAdd q id d dl) id = true := by
  unfold queueAdd
  by_cases h : hasKey q id = true
  · rw [if_pos h]
    exact h
  · rw [if_neg h]
    unfold hasKey
    simp [List.any_append]

/-- Adding a task preserves every key already present. -/
theorem hasKey_queueAdd_mono (q : List QueueTask) (jobId : String)
    (d : ReminderJobData) (dl : Int) (id : String)
    (h : hasKey q id = true) :
    hasKey (queueAdd q jobId d dl) id = true := by
  unfold queueAdd
  by_cases hk : hasKey q jobId = true
  · rw [if_pos hk]
    exact h
  · rw [if_neg hk]
    unfold hasKey at h ⊢
    simp [List.any_append, h]

/-- A queue with no task for a key has zero key count, and conversely. -/
theorem hasKey_eq_false_of_countKey_zero (q : List QueueTask) (id : String)
    (h : countKey q id = 0) : hasKey q id = false := by
  unfold countKey at h
  unfold hasKey
  rw [List.countP_eq_zero] at h
  by_cases hk : q.any (fun t => t.jobId == id) = true
  · rw [List.any_eq_true] at hk
    obtain ⟨t, ht, hp⟩ := hk
    exact absurd hp (h t ht)
  · exact Bool.not_eq_true _ |>.mp hk

/-- C5: scheduling is idempotent by key: starting from a queue holding no
task for the reminder id, two scheduleReminder calls for the same reminder
leave exactly one task keyed by that id in the queue, because the reminder id
is used as the deduplication key of the queue. -/
theorem c5_idempotent_scheduling (q : List QueueTask) (reminder : Reminder)
    (p1 p2 : String) (t1 t2 : Int) (h : countKey q reminder.id = 0) :
    countKey ((scheduleReminder reminder p2 t2
      (scheduleReminder reminder p1 t1 q).1).1) reminder.id = 1 := by
  have hk : hasKey q reminder.id = false :=
    hasKey_eq_false_of_countKey_zero q reminder.id h
  have h1 : (scheduleReminder reminder p1 t1 q).1 =
      q ++ [⟨reminder.id, mkJob reminder p1,
        max 0 (reminder.scheduledTime - t1)⟩] := by
    show queueAdd q reminder.id (mkJob reminder p1)
        (max 0 (reminder.scheduledTime - t1)) = _
    unfold queueAdd
    rw [if_neg (by simp [hk])]
  rw [h1]
  have h2 : hasKey (q ++ [⟨reminder.id, mkJob reminder p1,
      max 0 (reminder.scheduledTime - t1)⟩]) reminder.id = true := by
    unfold hasKey
    simp [List.any_append]
  have h3 : (scheduleReminder reminder p2 t2
      (q ++ [⟨reminder.id, mkJob reminder p1,
        max 0 (reminder.scheduledTime - t1)⟩])).1 =
      q ++ [⟨reminder.id, mkJob reminder p1,
        max 0 (reminder.scheduledTime - t1)⟩] := by
    show queueAdd _ reminder.id (mkJob reminder p2)
        (max 0 (reminder.scheduledTime - t2)) = _
    unfold queueAdd
    rw [if_pos h2]
  rw [h3]
  unfold countKey at h ⊢
  rw [List.countP_append]
  simp [h, List.countP_cons]

/-- C5 witness: two schedule calls on the empty queue leave one task. -/
theorem c5_witness :
    countKey ((scheduleReminder
      (mkReminder "r5" "u5" "water plants" 9000 ReminderStatus.pending)
      "+915" 200
      ((scheduleReminder
        (mkReminder "r5" "u5" "water plants" 9000 ReminderStatus.pending)
        "+915" 100 []).1)).1) "r5" = 1 :=
  c5_idempotent_scheduling []
    (mkReminder "r5" "u5" "water plants" 9000 ReminderStatus.pending)
    "+915" "+915" 100 200 (by decide)

/-- C10: a reminder whose scheduled time is already in the past is neither
rejected nor dropped: the warning flag is set and the task is enqueued with
the negative delay clamped to zero, firing immediately. -/
theorem c10_past_due_clamped_to_zero (r : Reminder) (phone : String)
    (now : Int) (q : List QueueTask) (h1 : r.scheduledTime < now)
    (h2 : hasKey q r.id = false) :
    (scheduleReminder r phone now q).2 = true ∧
    (scheduleReminder r phone now q).1 =
      q ++ [⟨r.id, mkJob r phone, 0⟩] := by
  constructor
  · show decide (r.scheduledTime - now < 0) = true
    exact decide_eq_true (by omega)
  · show queueAdd q r.id (mkJob r phone)
        (max 0 (r.scheduledTime - now)) = _
    unfold queueAdd
    rw [if_neg (by simp [h2]),
      max_eq_left (by omega : r.scheduledTime - now ≤ 0)]

/-- C10 witness: a reminder one second overdue is enqueued with delay 0 and
the warning flag set. -/
theorem c10_witness :
    (scheduleReminder (mkReminder "r10" "u10" "stretch" 1000
      ReminderStatus.pending) "+910" 2000 []).2 = true ∧
    (scheduleReminder (mkReminder "r10" "u10" "stretch" 1000
      ReminderStatus.pending) "+910" 2000 []).1 =
      [⟨"r10", mkJob (mkReminder "r10" "u10" "stretch" 1000
        ReminderStatus.pending) "+910", 0⟩] :=
  c10_past_due_clamped_to_zero
    (mkReminder "r10" "u10" "stretch" 1000 ReminderStatus.pending)
    "+910" 2000 [] (by decide) (by decide)

/-- Membership in the sweep query: exactly the pending records scheduled no
later than the given bound. -/
theorem mem_findPendingReminders (db : List Reminder) (t : Int)
    (r : Reminder) :
    r ∈ findPendingReminders db (some t) ↔
      r ∈ db ∧ r.status = ReminderStatus.pending ∧ r.scheduledTime ≤ t := by
  unfold findPendingReminders
  rw [List.mem_filter]
  simp [and_assoc]

/-- Scheduling one reminder preserves every key already in the queue. -/
theorem hasKey_scheduleReminder_mono (r : Reminder) (phone : String)
    (now : Int) (q : List QueueTask) (id : String)
    (h : hasKey q id = true) :
    hasKey (scheduleReminder r phone now q).1 id = true := by
  show hasKey (queueAdd q r.id (mkJob r phone)
    (max 0 (r.scheduledTime - now))) id = true
  exact hasKey_queueAdd_mono q r.id (mkJob r phone) _ id h

/-- The sweep loop preserves every key already in the queue. -/
theorem hasKey_sweepLoop_mono (users : List User)
    (schedFails : String → Bool) (now : Int) (id : String) :
    ∀ (l : List Reminder) (q : List QueueTask), hasKey q id = true →
      hasKey (sweepLoop users schedFails now l q) id = true := by
  intro l
  induction l with
  | nil => intro q h; exact h
  | cons r0 rest ih =>
    intro q h
    simp only [sweepLoop]
    cases h0 : sweepOne users schedFails now q r0 with
    | ok q' =>
      apply ih q'
      unfold sweepOne at h0
      split at h0
      · cases h0
        exact h
      · split at h0
        · exact Except.noConfusion h0
        · cases h0
          exact hasKey_scheduleReminder_mono r0 _ now q id h
    | error e => exact ih q h

/-- A reminder of the batch whose owner is found and whose scheduling call
does not throw ends up keyed in the queue after the sweep loop. -/
theorem sweepLoop_schedules (users : List User)
    (schedFails : String → Bool) (now : Int) :
    ∀ (l : List Reminder) (q : List QueueTask) (r : Reminder) (u : User),
      r ∈ l → userFindById users r.userId = some u →
      schedFails r.id = false →
      hasKey (sweepLoop users schedFails now l q) r.id = true := by
  intro l
  induction l with
  | nil => intro q r u h; exact absurd h (List.not_mem_nil r)
  | cons r0 rest ih =>
    intro q r u hmem hu hf
    rcases List.mem_cons.mp hmem with heq | hmem'
    · subst heq
      simp only [sweepLoop, sweepOne, hu]
      rw [if_neg (by simp [hf])]
      show hasKey (sweepLoop users schedFails now rest
        (scheduleReminder r u.phoneNumber now q).1) r.id = true
      apply hasKey_sweepLoop_mono
      show hasKey (queueAdd q r.id (mkJob r u.phoneNumber)
        (max 0 (r.scheduledTime - now))) r.id = true
      exact hasKey_queueAdd_self q r.id (mkJob r u.phoneNumber) _
    · simp only [sweepLoop]
      cases h0 : sweepOne users schedFails now q r0 with
      | ok q' => exact ih q' r u hmem' hu hf
      | error e => exact ih q r u hmem' hu hf

/-- C6: one sweep queries exactly the pending reminders scheduled within the
next hour, and any such reminder whose owner exists (and whose scheduling
call does not throw) is keyed into the queue by the sweep, even starting from
the empty queue. -/
theorem c6_recovery_sweep (db : List Reminder) (users : List User)
    (schedFails : String → Bool) (now : Int) (r : Reminder) (u : User)
    (hr : r ∈ db) (hp : r.status = ReminderStatus.pending)
    (ht : r.scheduledTime ≤ now + oneHourMs)
    (hu : userFindById users r.userId = some u)
    (hf : schedFails r.id = false) :
    (∀ r', r' ∈ findPendingReminders db (some (now + oneHourMs)) ↔
      r' ∈ db ∧ r'.status = ReminderStatus.pending ∧
        r'.scheduledTime ≤ now + oneHourMs) ∧
    hasKey (checkAndScheduleReminders db users schedFails now []) r.id =
      true := by
  refine ⟨fun r' => mem_findPendingReminders db _ r', ?_⟩
  unfold checkAndScheduleReminders
  have hmem : r ∈ findPendingReminders db (some (now + oneHourMs)) :=
    (mem_findPendingReminders db _ r).mpr ⟨hr, hp, ht⟩
  have hne : ¬((findPendingReminders db (some (now + oneHourMs))).isEmpty
      = true) := by
    intro hE
    rw [List.isEmpty_iff] at hE
    rw [hE] at hmem
    exact absurd hmem (List.not_mem_nil r)
  rw [if_neg hne]
  exact sweepLoop_schedules users schedFails now _ [] r u hmem hu hf

/-- C6 witness: a pending reminder due in half an hour, with its owner in the
store and an empty queue, is scheduled by one sweep. -/
theorem c6_witness :
    (∀ r', r' ∈ findPendingReminders
        [mkReminder "r6" "u6" "gym" 1800000 ReminderStatus.pending]
        (some (0 + oneHourMs)) ↔
      r' ∈ [mkReminder "r6" "u6" "gym" 1800000 ReminderStatus.pending] ∧
        r'.status = ReminderStatus.pending ∧
        r'.scheduledTime ≤ 0 + oneHourMs) ∧
    hasKey (checkAndScheduleReminders
      [mkReminder "r6" "u6" "gym" 1800000 ReminderStatus.pending]
      [⟨"u6", "+916"⟩] (fun _ => false) 0 []) "r6" = true :=
  c6_recovery_sweep
    [mkReminder "r6" "u6" "gym" 1800000 ReminderStatus.pending]
    [⟨"u6", "+916"⟩] (fun _ => false) 0
    (mkReminder "r6" "u6" "gym" 1800000 ReminderStatus.pending)
    ⟨"u6", "+916"⟩ (by decide) (by decide) (by decide) (by decide) rfl

/-- C9: a failure affecting a single reminder of the batch, either its owner
lookup finding no user or its scheduling call throwing, leaves the queue
untouched for that reminder and does not abort the sweep: the loop behaves
exactly as if the failing reminder were absent from the batch, so every
remaining reminder is still processed and no error escapes the loop. -/
theorem c9_single_failure_does_not_abort (users : List User)
    (schedFails : String → Bool) (now : Int) (l1 l2 : List Reminder)
    (bad : Reminder) (q : List QueueTask)
    (h : userFindById users bad.userId = none ∨ schedFails bad.id = true) :
    sweepLoop users schedFails now (l1 ++ bad :: l2) q =
      sweepLoop users schedFails now (l1 ++ l2) q := by
  induction l1 generalizing q with
  | nil =>
    simp only [List.nil_append, sweepLoop]
    rcases h with h | h
    · simp only [sweepOne, h]
    · cases hu : userFindById users bad.userId with
      | none => simp only [sweepOne, hu]
      | some u =>
        simp only [sweepOne, hu]
        rw [if_pos h]
  | cons r0 rest ih =>
    simp only [List.cons_append, sweepLoop]
    cases h0 : sweepOne users schedFails now q r0 with
    | ok q' => exact ih q'
    | error e => exact ih q

/-- C9 witness: with the middle reminder owned by a user absent from the
store, the sweep of the three-element batch equals the sweep without it. -/
theorem c9_witness :
    sweepLoop [⟨"u6", "+916"⟩] (fun _ => false) 0
      ([mkReminder "a" "u6" "x" 10 ReminderStatus.pending] ++
        mkReminder "b" "ghost" "y" 20 ReminderStatus.pending ::
        [mkReminder "c" "u6" "z" 30 ReminderStatus.pending]) [] =
    sweepLoop [⟨"u6", "+916"⟩] (fun _ => false) 0
      ([mkReminder "a" "u6" "x" 10 ReminderStatus.pending] ++
        [mkReminder "c" "u6" "z" 30 ReminderStatus.pending]) [] :=
  c9_single_failure_does_not_abort [⟨"u6", "+916"⟩] (fun _ => false) 0
    [mkReminder "a" "u6" "x" 10 ReminderStatus.pending]
    [mkReminder "c" "u6" "z" 30 ReminderStatus.pending]
    (mkReminder "b" "ghost" "y" 20 ReminderStatus.pending) []
    (Or.inl (by decide))

/-- C7: when the task for a pending reminder fires and the notifier send
succeeds, the worker persists status sent, a non-null sentAt and the external
message id returned by the notifier, and appends exactly one outbound
conversation message whose relatedReminderId is the reminder id. -/
theorem c7_happy_path (job : ReminderJobData) (db : List Reminder)
    (log : List ConversationMessage) (now : Int) (r : Reminder) (m : String)
    (hfind : findById db job.reminderId = some r)
    (hr : r.status = ReminderStatus.pending) :
    statusOf (processReminder job db log (SendResult.success m) now).db
        job.reminderId = some ReminderStatus.sent ∧
    sentAtOf (processReminder job db log (SendResult.success m) now).db
        job.reminderId = some now ∧
    whatsappMsgIdOf (processReminder job db log (SendResult.success m)
        now).db job.reminderId = some m ∧
    (processReminder job db log (SendResult.success m) now).log =
      log ++ [⟨job.userId, Direction.outbound,
        renderMessage job.reminderText, some m, some "create_reminder",
        some job.reminderId⟩] := by
  rw [processReminder_success_eq job db log m now r hfind hr]
  have hupd := findById_updateById db job.reminderId
    (fun r =>
      { r with status := ReminderStatus.sent, sentAt := some now,
               whatsappMsgId := some m })
    (fun r => rfl)
  refine ⟨?_, ?_, ?_, rfl⟩
  · show statusOf (markAsSent db job.reminderId m now) job.reminderId = _
    unfold statusOf markAsSent
    rw [hupd, hfind]
    rfl
  · show sentAtOf (markAsSent db job.reminderId m now) job.reminderId = _
    unfold sentAtOf markAsSent
    rw [hupd, hfind]
    rfl
  · show whatsappMsgIdOf (markAsSent db job.reminderId m now)
        job.reminderId = _
    unfold whatsappMsgIdOf markAsSent
    rw [hupd, hfind]
    rfl

/-- C7 witness: the happy path at a concrete pending reminder. -/
theorem c7_witness :
    statusOf (processReminder (mkJob c7Reminder "+917") [c7Reminder] []
        (SendResult.success "wamid.7") 42).db "r7" =
      some ReminderStatus.sent ∧
    sentAtOf (processReminder (mkJob c7Reminder "+917") [c7Reminder] []
        (SendResult.success "wamid.7") 42).db "r7" = some 42 ∧
    whatsappMsgIdOf (processReminder (mkJob c7Reminder "+917") [c7Reminder]
        [] (SendResult.success "wamid.7") 42).db "r7" = some "wamid.7" ∧
    (processReminder (mkJob c7Reminder "+917") [c7Reminder] []
        (SendResult.success "wamid.7") 42).log =
      [] ++ [⟨"u7", Direction.outbound, renderMessage "drink water",
        some "wamid.7", some "create_reminder", some "r7"⟩] :=
  c7_happy_path (mkJob c7Reminder "+917") [c7Reminder] [] 42 c7Reminder
    "wamid.7" (by decide) (by decide)

/-- Filtering by a predicate implied by the search predicate does not change
the result of the search. -/
theorem find?_filter_of_imp {α : Type} (p q : α → Bool) (l : List α)
    (h : ∀ x, p x = true → q x = true) :
    (l.filter q).find? p = l.find? p := by
  induction l with
  | nil => rfl
  | cons a rest ih =>
    by_cases hp : p a = true
    · have hq := h a hp
      rw [List.filter_cons_of_pos hq]
      simp only [List.find?_cons, hp]
    · have hpf : p a = false := by simpa using hp
      by_cases hq : q a = true
      · rw [List.filter_cons_of_pos hq]
        simp only [List.find?_cons, hpf]
        exact ih
      · rw [List.filter_cons_of_neg hq]
        simp only [List.find?_cons, hpf]
        exact ih

/-- Lookup distributes over append, first list first. -/
theorem lookupKV_append (l1 l2 : List (String × String)) (k : String) :
    lookupKV (l1 ++ l2) k = (lookupKV l1 k).or (lookupKV l2 k) := by
  unfold lookupKV
  rw [List.find?_append]
  cases List.find? (fun p => p.1 == k) l1 <;> rfl

/-- A key bound in the override bag is filtered out of the kept part of the
spread. -/
theorem lookupKV_filter_of_lookup_some (cur upd : List (String × String))
    (k v : String) (hup : lookupKV upd k = some v) :
    lookupKV (cur.filter (fun p => (lookupKV upd p.1).isNone)) k = none := by
  have hfind : List.find? (fun p => p.1 == k)
      (cur.filter (fun p => (lookupKV upd p.1).isNone)) = none := by
    rw [List.find?_eq_none]
    intro x hx hpx
    rw [List.mem_filter] at hx
    have hk : x.1 = k := by simpa using hpx
    have h2 := hx.2
    rw [hk, hup] at h2
    simp at h2
  show (List.find? (fun p => p.1 == k)
    (cur.filter (fun p => (lookupKV upd p.1).isNone))).map Prod.snd = none
  rw [hfind]
  rfl

/-- Lookup in the object spread: the override bag wins on its keys, the kept
bag answers all other keys. -/
theorem lookupKV_spreadMerge (cur upd : List (String × String))
    (k : String) :
    lookupKV (spreadMerge cur upd) k =
      match lookupKV upd k with
      | some v => some v
      | none => lookupKV cur k := by
  show lookupKV
    (cur.filter (fun p => (lookupKV upd p.1).isNone) ++ upd) k = _
  rw [lookupKV_append]
  cases hup : lookupKV upd k with
  | some v =>
    rw [lookupKV_filter_of_lookup_some cur upd k v hup]
    rfl
  | none =>
    rw [Option.or_none]
    show (List.find? (fun p => p.1 == k)
        (cur.filter (fun p => (lookupKV upd p.1).isNone))).map Prod.snd =
      (List.find? (fun p => p.1 == k) cur).map Prod.snd
    rw [find?_filter_of_imp]
    intro x hpx
    have hk : x.1 = k := by simpa using hpx
    rw [hk, hup]
    rfl

/-- C8: with an active flow, updateFlowData keeps the agent and the active
flow, and replaces the flow data by the spread merge of the old data with the
update: the update wins on its keys and every other prior key keeps its
value; with no state or no active flow, the call leaves the store entirely
unchanged. -/
theorem c8_update_flow_data (db : List AgentState) (userId : String)
    (data : List (String × String)) (now : Int) :
    (∀ s fl, getState db userId = some s → s.activeFlow = some fl →
      ∃ s', getState (updateFlowData db userId data now) userId = some s' ∧
        s'.activeFlow = some fl ∧ s'.currentAgent = s.currentAgent ∧
        ∀ k, lookupKV s'.flowData k =
          match lookupKV data k with
          | some v => some v
          | none => lookupKV s.flowData k) ∧
    ((∀ s, getState db userId = some s → s.activeFlow = none) →
      updateFlowData db userId data now = db) := by
  constructor
  · intro s fl hs hfl
    unfold updateFlowData
    simp only [hs]
    rw [if_neg (by simp [hfl])]
    refine ⟨{ s with flowData := spreadMerge s.flowData data, lastUpdated := now }, ?_, hfl, rfl, ?_⟩
    · have h := getState_updateStateById db userId
        (fun st =>
          { st with flowData := spreadMerge s.flowData data,
                    lastUpdated := now })
        (fun st => rfl)
      rw [h, hs]
      rfl
    · intro k
      exact lookupKV_spreadMerge s.flowData data k
  · intro h
    unfold updateFlowData
    split
    · rfl
    · rename_i s hs
      rw [if_pos (by simp [h s hs])]

/-- C8 witness: the flow-resumption scenario: starting from flow data
amount 500 under flow split_expense, merging participantCount 2 keeps the
flow and both keys. -/
theorem c8_witness :
    ∃ s', getState (updateFlowData [c3State] "u"
        [("participantCount", "2")] 9) "u" = some s' ∧
      s'.activeFlow = some "split_expense" ∧
      s'.currentAgent = c3State.currentAgent ∧
      ∀ k, lookupKV s'.flowData k =
        match lookupKV [("participantCount", "2")] k with
        | some v => some v
        | none => lookupKV c3State.flowData k :=
  (c8_update_flow_data [c3State] "u" [("participantCount", "2")] 9).1
    c3State "split_expense" (by decide) (by decide)
